import Mathlib

/-!
# Verification of the antigravity-agent live change-notification layer

Shallow embedding of the subscription / event-fanout core of the
antigravity-agent frontend:

* `SimpleEncryption.validatePassword` (src/utils/encryption.ts);
* the database-listener store (`useDatabaseStore`: `cleanup`,
  `setListening`, `setUnlistenFn`) and the hook built on it
  (`useDatabaseListener`: `startListening`, `stopListening`,
  `restartListening`);
* the monitoring-settings store (`useDbMonitoringStore`:
  `loadSettings`, `setDbMonitoringEnabled`, `addListener`, the global
  `globalUnlistenFn` handle) together with the Node `EventEmitter`
  semantics it delegates fanout to;
* the page-visibility handler of `useAutoDatabaseListener`.

Backend effects (Tauri `invoke`, `listen`, the unlisten handle call)
are modelled by passing their outcomes as explicit `Except`/`Bool`
oracles; channel registrations are tracked as a list of opaque handle
identifiers so that "number of live registrations" is observable.
-/

namespace AntigravityAgent

/-! ## SimpleEncryption.validatePassword (src/utils/encryption.ts) -/

namespace SimpleEncryption

structure PasswordValidation where
  isValid : Bool
  message : Option String
  deriving Repr, DecidableEq

/-- Embeds `SimpleEncryption.validatePassword`: passwords shorter than 4
characters or longer than 50 characters are rejected with a message,
everything else is accepted (and no message is returned). -/
def validatePassword (password : String) : PasswordValidation :=
  if password.length < 4 then
    { isValid := false, message := some "密码长度至少为4位" }
  else if password.length > 50 then
    { isValid := false, message := some "密码长度不能超过50位" }
  else
    { isValid := true, message := none }

end SimpleEncryption

/-! ## The database-listener store (part_004 `useDatabaseStore`) and the
`useDatabaseListener` hook (src/hooks/useDatabaseListener.ts)

`ListenerState` is the observable store state: the stored unlisten
handle (`unlistenFn`, an opaque token modelled as a `Nat`) and the
`isListening` flag.  Operations additionally report the list of
backend unlisten invocations they perform, so "no backend call is
made" is expressible. -/

namespace DatabaseStore

structure ListenerState where
  unlistenFn : Option Nat
  isListening : Bool
  deriving Repr, DecidableEq

/-- Embeds the store's `cleanup`: when a handle is stored, it awaits the
handle; on success it clears `unlistenFn` and `isListening`, on failure
(`unlistenOk = false`) it only logs — state is left untouched.  The
surrounding try/catch means `cleanup` itself never throws.  The second
component records which handles were invoked on the backend. -/
def cleanup (unlistenOk : Bool) (s : ListenerState) : ListenerState × List Nat :=
  match s.unlistenFn with
  | none => (s, [])
  | some h =>
    if unlistenOk then ({ unlistenFn := none, isListening := false }, [h])
    else (s, [h])

/-- Embeds the hook's `stopListening`: `await cleanup()` then
`setListening(false)`.  All errors are caught and logged, so the call
always resolves successfully. -/
def stopListening (unlistenOk : Bool) (s : ListenerState) : ListenerState × List Nat :=
  let r := cleanup unlistenOk s
  ({ unlistenFn := r.1.unlistenFn, isListening := false }, r.2)

/-- Embeds the hook's `startListening`: `await cleanup()`, then
`listen('database-changed', ...)`; on success the returned handle is
stored and `isListening` is set; on failure the catch block only logs
and calls `setListening(false)` — the function still resolves with
`Except.ok`.  `listenResult` is the outcome of the backend `listen`
call. -/
def startListening (listenResult : Except String Nat) (unlistenOk : Bool)
    (s : ListenerState) : Except String Unit × ListenerState × List Nat :=
  let r := cleanup unlistenOk s
  match listenResult with
  | .ok h => (.ok (), { unlistenFn := some h, isListening := true }, r.2)
  | .error _ => (.ok (), { unlistenFn := r.1.unlistenFn, isListening := false }, r.2)

end DatabaseStore

/-! ## The monitoring-settings store (part_007 `useDbMonitoringStore`) -/

namespace DbMonitoringStore

structure MonitoringState where
  dbMonitoringEnabled : Bool
  deriving Repr, DecidableEq

/-- Calls the store makes into the subscription layer. -/
inductive MgrCall where
  | start
  | stop
  deriving Repr, DecidableEq

/-- Embeds `setDbMonitoringEnabled`: first `invoke('set_db_monitoring_enabled')`
(outcome `saveResult`); if that throws, the catch block logs and
rethrows, leaving the store state untouched and making no listener
calls.  On success, `stopListening()` is invoked when disabling, and
the store flag is set to the requested value. -/
def setDbMonitoringEnabled (saveResult : Except String Unit) (enabled : Bool)
    (s : MonitoringState) : Except String Unit × MonitoringState × List MgrCall :=
  match saveResult with
  | .error e => (.error e, s, [])
  | .ok _ =>
    (.ok (), { dbMonitoringEnabled := enabled }, if enabled then [] else [.stop])

/-- Embeds `loadSettings`: on a successful backend read the flag is
stored and returned, and `startListening()` is invoked when the flag is
true; when the read fails the catch block logs, stores the default
`true` — and falls through without a return statement, so the promise
resolves with `undefined` (modelled as `none`).  The third component
records whether `startListening` was invoked. -/
def loadSettings (backendResult : Except String Bool) :
    Option Bool × MonitoringState × Bool :=
  match backendResult with
  | .ok b => (some b, { dbMonitoringEnabled := b }, b)
  | .error _ => (none, { dbMonitoringEnabled := true }, false)

end DbMonitoringStore

/-! ## Node `EventEmitter` fanout (part_007 `databaseEventEmitter`,
`addListener`, `handleDatabaseChange`)

Callbacks are identified by their function identity, modelled as `Nat`.
`addListener` delegates to `EventEmitter.on` (append) and the returned
unsubscribe closure delegates to `EventEmitter.off`, which removes at
most one instance of the listener (Node scans the listener array from
the end, so the last-added matching instance is removed).
`handleDatabaseChange` delegates delivery to `EventEmitter.emit`:
listeners run synchronously in registration order, and a thrown
exception propagates out of `emit`, so listeners after the first
throwing one are not invoked. -/

namespace DatabaseEventEmitter

/-- `EventEmitter.on` as used by `addListener`: appends the callback. -/
def emitterOn (ls : List Nat) (c : Nat) : List Nat := ls ++ [c]

/-- `EventEmitter.off` as used by the unsubscribe closure returned from
`addListener`: removes the last-added instance of the callback, a
silent no-op when the callback is not registered, never an error. -/
def emitterOff (ls : List Nat) (c : Nat) : List Nat := (ls.reverse.erase c).reverse

/-- `EventEmitter.emit` as invoked by `handleDatabaseChange`: invokes
the registered callbacks in order; `throws c` says whether callback `c`
throws when invoked.  Returns the callbacks actually invoked (in
invocation order) and the first thrower, if any, whose exception
aborted the remaining deliveries. -/
def emitRun (throws : Nat → Bool) : List Nat → List Nat × Option Nat
  | [] => ([], none)
  | c :: rest =>
    if throws c then ([c], some c)
    else
      let r := emitRun throws rest
      (c :: r.1, r.2)

end DatabaseEventEmitter

/-! ## Page-visibility handler (`useAutoDatabaseListener`) -/

namespace Visibility

/-- The subscription-related observable state the visibility handler
could touch: the stored handle, the listening flag, the monitoring
flag. -/
structure AppState where
  listener : DatabaseStore.ListenerState
  monitoring : DbMonitoringStore.MonitoringState
  deriving Repr, DecidableEq

/-- Embeds `handleVisibilityChange` of `useAutoDatabaseListener`: it
only logs a message depending on `document.hidden` and touches no
state. -/
def handleVisibilityChange (hidden : Bool) (s : AppState) : AppState × String :=
  if hidden then (s, "页面隐藏，暂停数据库监听")
  else (s, "页面显示，恢复数据库监听")

end Visibility

/-! ## Micro-step model of overlapping start/stop/restart calls

The hook's `startListening`/`stopListening`/`restartListening` are
async: they suspend at `await cleanup()`, at `await listen(...)` and
between the two statements of `stopListening`, so several in-flight
calls can interleave on the single-threaded event loop.  `Backend`
tracks the channel registrations that are actually live on the backend
(`live`, by opaque handle id) next to the one store variable holding
the unlisten handle.  Each call is compiled to its list of atomic
actions (`actsOf`), and `Interleaving` relates a set of in-flight
calls to the schedules the event loop may execute.  Unlisten calls are
taken to succeed in this model. -/

namespace Schedule

structure Backend where
  live : List Nat
  nextId : Nat
  deriving Repr, DecidableEq

structure MgrState where
  backend : Backend
  unlistenFn : Option Nat
  isListening : Bool
  deriving Repr, DecidableEq

def initMgrState : MgrState := { backend := { live := [], nextId := 0 }, unlistenFn := none, isListening := false }

/-- `cleanup` as one atomic step (its unlisten succeeding): when a
handle is stored, the backend registration is removed and the store is
cleared. -/
def cleanupStep (s : MgrState) : MgrState :=
  match s.unlistenFn with
  | none => s
  | some h =>
    { backend := { s.backend with live := s.backend.live.erase h },
      unlistenFn := none, isListening := false }

/-- The `listen` call resolving: a fresh handle is registered on the
backend, stored via `setUnlistenFn`, and `setListening(true)` runs. -/
def listenStoreStep (s : MgrState) : MgrState :=
  { backend := { live := s.backend.live ++ [s.backend.nextId], nextId := s.backend.nextId + 1 },
    unlistenFn := some s.backend.nextId, isListening := true }

/-- The `setListening(false)` statement of `stopListening`. -/
def setNotListeningStep (s : MgrState) : MgrState :=
  { s with isListening := false }

inductive Act where
  | cleanup
  | listenStore
  | setNotListening
  deriving Repr, DecidableEq

def stepAct : Act → MgrState → MgrState
  | .cleanup, s => cleanupStep s
  | .listenStore, s => listenStoreStep s
  | .setNotListening, s => setNotListeningStep s

def runActs : List Act → MgrState → MgrState
  | [], s => s
  | a :: l, s => runActs l (stepAct a s)

/-- All states a run passes through, the initial and final states
included. -/
def statesAlong : List Act → MgrState → List MgrState
  | [], s => [s]
  | a :: l, s => s :: statesAlong l (stepAct a s)

inductive Call where
  | start
  | stop
  | restart
  deriving Repr, DecidableEq

/-- The atomic actions of one call of the hook: `startListening` is
`cleanup` then the resolving `listen`; `stopListening` is `cleanup`
then `setListening(false)`; `restartListening` is `stopListening` then
`startListening`, sequentially. -/
def actsOf : Call → List Act
  | .start => [.cleanup, .listenStore]
  | .stop => [.cleanup, .setNotListening]
  | .restart => [.cleanup, .setNotListening, .cleanup, .listenStore]

/-- The schedule of a list of calls run strictly one after the other. -/
def seqActs : List Call → List Act
  | [] => []
  | c :: cs => actsOf c ++ seqActs cs

/-- `Interleaving tasks sched`: `sched` is a schedule the event loop
can produce from the in-flight `tasks`, each task's own actions kept
in order. -/
inductive Interleaving : List (List Act) → List Act → Prop
  | done (ls : List (List Act)) : (∀ l ∈ ls, l = []) → Interleaving ls []
  | step (pre : List (List Act)) (a : Act) (rest : List Act) (post : List (List Act))
      (out : List Act) :
      Interleaving (pre ++ rest :: post) out →
      Interleaving (pre ++ (a :: rest) :: post) (a :: out)

/-- The local-state/backend agreement that sequential runs maintain:
the live registrations are exactly the stored handle. -/
def good (s : MgrState) : Prop := s.backend.live = s.unlistenFn.toList

/-- A schedule the event loop can produce from two overlapping
`startListening` calls A and B: A runs `cleanup`, suspends at `listen`;
B runs `cleanup` (the handle variable is still empty), suspends; then
both `listen` calls resolve and each stores its handle. -/
def overlappedStarts : List Act := [.cleanup, .cleanup, .listenStore, .listenStore]

end Schedule

/-! ## Verified properties -/

namespace Schedule

theorem good_init : good initMgrState := rfl

theorem good_length_le_one {s : MgrState} (h : good s) :
    s.backend.live.length ≤ 1 := by
  rw [good] at h
  rw [h]
  cases s.unlistenFn <;> simp [Option.toList]

theorem cleanupStep_unlistenFn (s : MgrState) :
    (cleanupStep s).unlistenFn = none := by
  cases hu : s.unlistenFn <;> simp [cleanupStep, hu]

theorem cleanupStep_good {s : MgrState} (h : good s) : good (cleanupStep s) := by
  cases hu : s.unlistenFn with
  | none => simpa [cleanupStep, hu] using h
  | some a =>
    rw [good] at h
    rw [hu] at h
    simp [cleanupStep, hu, good, h, Option.toList, List.erase_cons_head]

theorem listenStoreStep_good {s : MgrState} (h : good s)
    (h0 : s.unlistenFn = none) : good (listenStoreStep s) := by
  rw [good] at h
  rw [h0] at h
  simp [listenStoreStep, good, h, Option.toList]

theorem setNotListeningStep_good {s : MgrState} (h : good s) :
    good (setNotListeningStep s) := h

theorem runActs_append (l₁ l₂ : List Act) (s : MgrState) :
    runActs (l₁ ++ l₂) s = runActs l₂ (runActs l₁ s) := by
  induction l₁ generalizing s with
  | nil => rfl
  | cons a l ih => simp [runActs, ih]

theorem statesAlong_append_mem {l₁ l₂ : List Act} {s t : MgrState}
    (h : t ∈ statesAlong (l₁ ++ l₂) s) :
    t ∈ statesAlong l₁ s ∨ t ∈ statesAlong l₂ (runActs l₁ s) := by
  induction l₁ generalizing s with
  | nil => exact Or.inr h
  | cons a l ih =>
    rw [List.cons_append, statesAlong, List.mem_cons] at h
    rcases h with h | h
    · exact Or.inl (by rw [statesAlong, List.mem_cons]; exact Or.inl h)
    · rcases ih h with h' | h'
      · exact Or.inl (by rw [statesAlong, List.mem_cons]; exact Or.inr h')
      · exact Or.inr h'

theorem call_states_ok {s : MgrState} (h : good s) (c : Call) :
    (∀ t ∈ statesAlong (actsOf c) s, t.backend.live.length ≤ 1) ∧
      good (runActs (actsOf c) s) := by
  have hc : good (cleanupStep s) := cleanupStep_good h
  have hcn : (cleanupStep s).unlistenFn = none := cleanupStep_unlistenFn s
  cases c with
  | start =>
    refine ⟨?_, listenStoreStep_good hc hcn⟩
    intro t ht
    simp only [actsOf, statesAlong, stepAct, List.mem_cons, List.mem_singleton,
      List.not_mem_nil, or_false] at ht
    rcases ht with rfl | rfl | rfl
    · exact good_length_le_one h
    · exact good_length_le_one hc
    · exact good_length_le_one (listenStoreStep_good hc hcn)
  | stop =>
    refine ⟨?_, setNotListeningStep_good hc⟩
    intro t ht
    simp only [actsOf, statesAlong, stepAct, List.mem_cons, List.mem_singleton,
      List.not_mem_nil, or_false] at ht
    rcases ht with rfl | rfl | rfl
    · exact good_length_le_one h
    · exact good_length_le_one hc
    · exact good_length_le_one (setNotListeningStep_good hc)
  | restart =>
    have h2 : good (setNotListeningStep (cleanupStep s)) := setNotListeningStep_good hc
    have h3 : good (cleanupStep (setNotListeningStep (cleanupStep s))) := cleanupStep_good h2
    have h3n := cleanupStep_unlistenFn (setNotListeningStep (cleanupStep s))
    refine ⟨?_, listenStoreStep_good h3 h3n⟩
    intro t ht
    simp only [actsOf, statesAlong, stepAct, List.mem_cons, List.mem_singleton,
      List.not_mem_nil, or_false] at ht
    rcases ht with rfl | rfl | rfl | rfl | rfl
    · exact good_length_le_one h
    · exact good_length_le_one hc
    · exact good_length_le_one h2
    · exact good_length_le_one h3
    · exact good_length_le_one (listenStoreStep_good h3 h3n)

theorem seq_states_ok (cs : List Call) {s : MgrState} (h : good s) :
    (∀ t ∈ statesAlong (seqActs cs) s, t.backend.live.length ≤ 1) ∧
      good (runActs (seqActs cs) s) := by
  induction cs generalizing s with
  | nil =>
    refine ⟨?_, h⟩
    intro t ht
    simp only [seqActs, statesAlong, List.mem_singleton] at ht
    subst ht
    exact good_length_le_one h
  | cons c cs ih =>
    have hc := call_states_ok h c
    have ihh := ih hc.2
    constructor
    · intro t ht
      rw [seqActs] at ht
      rcases statesAlong_append_mem ht with h1 | h2
      · exact hc.1 t h1
      · exact ihh.1 t h2
    · rw [seqActs, runActs_append]
      exact ihh.2

/-- C1 counterexample: `overlappedStarts` is a legal interleaving of two
overlapping `startListening` calls, and running it from the initial
state ends with TWO live channel registrations — the first handle is
overwritten and leaks, so the at-most-one invariant fails for
overlapping calls. -/
theorem overlapping_starts_violate_at_most_one :
    Interleaving [actsOf Call.start, actsOf Call.start] overlappedStarts ∧
      ¬ (runActs overlappedStarts initMgrState).backend.live.length ≤ 1 := by
  constructor
  · have t0 : Interleaving [[], []] [] := Interleaving.done _ (by decide)
    have t1 : Interleaving [[], [Act.listenStore]] [Act.listenStore] :=
      Interleaving.step [[]] Act.listenStore [] [] [] t0
    have t2 : Interleaving [[Act.listenStore], [Act.listenStore]]
        [Act.listenStore, Act.listenStore] :=
      Interleaving.step [] Act.listenStore [] [[Act.listenStore]] [Act.listenStore] t1
    have t3 : Interleaving [[Act.listenStore], [Act.cleanup, Act.listenStore]]
        [Act.cleanup, Act.listenStore, Act.listenStore] :=
      Interleaving.step [[Act.listenStore]] Act.cleanup [Act.listenStore] []
        [Act.listenStore, Act.listenStore] t2
    have t4 : Interleaving [[Act.cleanup, Act.listenStore], [Act.cleanup, Act.listenStore]]
        [Act.cleanup, Act.cleanup, Act.listenStore, Act.listenStore] :=
      Interleaving.step [] Act.cleanup [Act.listenStore] [[Act.cleanup, Act.listenStore]]
        [Act.cleanup, Act.listenStore, Act.listenStore] t3
    exact t4
  · decide

/-- C1 (amended): when `startListening`, `stopListening` and
`restartListening` calls run strictly one after the other (no overlap)
and unlisten calls succeed, every state along the run — so also the
final one — has at most one live channel registration. -/
theorem sequential_calls_at_most_one_registration (cs : List Call) (t : MgrState)
    (h : t ∈ statesAlong (seqActs cs) initMgrState) :
    t.backend.live.length ≤ 1 :=
  (seq_states_ok cs good_init).1 t h

theorem sequential_calls_at_most_one_registration_witness :
    ({ backend := { live := [0], nextId := 1 }, unlistenFn := some 0,
        isListening := true } : MgrState).backend.live.length ≤ 1 :=
  sequential_calls_at_most_one_registration [Call.start] _ (by decide)

end Schedule

namespace DatabaseEventEmitter

/-- C2 counterexample: with callbacks `0` then `1` registered in that
order and callback `0` throwing, `emit` invokes only callback `0`: the
exception aborts delivery, so not all registered callbacks are
invoked. -/
theorem throwing_listener_stops_delivery :
    (emitRun (fun c => c == 0) (emitterOn (emitterOn [] 0) 1)).1
      ≠ emitterOn (emitterOn [] 0) 1 := by
  decide

/-- C2 (amended): `publish` invokes callbacks synchronously in
registration order, each at most once; when no callback throws all N
registered callbacks are invoked, but a throwing callback aborts
delivery — the invoked callbacks are exactly the non-throwing prefix
followed by the first thrower, and callbacks registered after it are
not invoked. -/
theorem emit_delivers_up_to_first_throw (throws : Nat → Bool) (ls : List Nat) :
    (emitRun throws ls).1
      = ls.takeWhile (fun c => !throws c)
          ++ (ls.dropWhile (fun c => !throws c)).take 1 := by
  induction ls with
  | nil => rfl
  | cons c rest ih =>
    cases h : throws c <;>
      simp [emitRun, h, List.takeWhile_cons, List.dropWhile_cons, ih]

theorem emitterOff_of_not_mem {ls : List Nat} {c : Nat} (h : c ∉ ls) :
    emitterOff ls c = ls := by
  rw [emitterOff, List.erase_of_not_mem (by simpa using h), List.reverse_reverse]

theorem emitterOff_count_self (ls : List Nat) (c : Nat) :
    (emitterOff ls c).count c = ls.count c - 1 := by
  rw [emitterOff, List.count_reverse, List.count_erase_self, List.count_reverse]

theorem emitterOff_count_of_ne (ls : List Nat) {c d : Nat} (h : d ≠ c) :
    (emitterOff ls c).count d = ls.count d := by
  rw [emitterOff, List.count_reverse, List.count_erase_of_ne h, List.count_reverse]

/-- C5 counterexample: register the same callback function twice via
`addListener` (handles `h₁`, `h₂`, both closing over the same
listener), then call `h₁`'s unsubscribe twice: the second call removes
the other instance as well, so the registration behind `h₂` is gone —
double-unregister is not a no-op here. -/
theorem double_unregister_removes_other_registration :
    emitterOff (emitterOff (emitterOn (emitterOn [] 0) 0) 0) 0
      ≠ emitterOff (emitterOn (emitterOn [] 0) 0) 0 := by
  decide

/-- C5 (amended): the unsubscribe closure never throws (it is total);
unsubscribing a callback that is not registered is a silent no-op;
unsubscribing never changes the registrations of any other callback
function; and as long as a callback function is registered at most
once, unsubscribing twice equals unsubscribing once.  When the same
function is registered several times, a repeated unsubscribe removes
further instances. -/
theorem unregister_is_safe_and_isolated (ls : List Nat) (c : Nat) :
    (c ∉ ls → emitterOff ls c = ls) ∧
      (ls.count c ≤ 1 → emitterOff (emitterOff ls c) c = emitterOff ls c) ∧
      (∀ d, d ≠ c → (emitterOff ls c).count d = ls.count d) := by
  refine ⟨fun h => emitterOff_of_not_mem h, fun h => ?_, fun d hd => emitterOff_count_of_ne ls hd⟩
  have h0 : (emitterOff ls c).count c = 0 := by
    rw [emitterOff_count_self]
    omega
  exact emitterOff_of_not_mem (List.count_eq_zero.mp h0)

theorem unregister_is_safe_and_isolated_witness :
    emitterOff (emitterOff (emitterOn (emitterOn [] 0) 1) 1) 1
      = emitterOff (emitterOn (emitterOn [] 0) 1) 1 :=
  (unregister_is_safe_and_isolated (emitterOn (emitterOn [] 0) 1) 1).2.1 (by decide)

end DatabaseEventEmitter

namespace DbMonitoringStore

/-- C3: when persisting the monitoring flag fails, `setDbMonitoringEnabled`
rethrows the error, leaves the observable monitoring flag unchanged,
and invokes neither start nor stop on the listener layer. -/
theorem save_failure_leaves_monitoring_unchanged (e : String) (enabled : Bool)
    (s : MonitoringState) :
    setDbMonitoringEnabled (Except.error e) enabled s = (Except.error e, s, []) := rfl

/-- C6: when the backend read fails, `loadSettings` resolves without
raising and stores the fail-open default `true` — but its returned
value is `undefined` (`none`), not `true`: the catch branch has no
return statement, contradicting the declared `Promise of boolean`
contract. -/
theorem loadSettings_failure_returns_undefined :
    loadSettings (Except.error "读取失败") = (none, { dbMonitoringEnabled := true }, false) ∧
      (loadSettings (Except.error "读取失败")).1 ≠ some true :=
  ⟨rfl, fun hcon => Option.noConfusion hcon⟩

end DbMonitoringStore

namespace DatabaseStore

/-- C4: calling `stopListening` when no subscription exists (handle
`none`, listening flag false) returns success, changes no observable
state, makes no backend call, and a second stop equals a single stop. -/
theorem stop_when_stopped_is_noop (unlistenOk : Bool) (s : ListenerState)
    (h1 : s.unlistenFn = none) (h2 : s.isListening = false) :
    stopListening unlistenOk s = (s, []) ∧
      stopListening unlistenOk (stopListening unlistenOk s).1 = stopListening unlistenOk s := by
  have hs : s = { unlistenFn := none, isListening := false } := by
    cases s
    simp_all
  subst hs
  exact ⟨rfl, rfl⟩

theorem stop_when_stopped_is_noop_witness :
    stopListening true { unlistenFn := none, isListening := false }
        = ({ unlistenFn := none, isListening := false }, []) ∧
      stopListening true (stopListening true { unlistenFn := none, isListening := false }).1
        = stopListening true { unlistenFn := none, isListening := false } :=
  stop_when_stopped_is_noop true { unlistenFn := none, isListening := false } rfl rfl

/-- C7 counterexample: when the stored handle's unlisten call fails,
`cleanup` keeps the handle — the local state still holds it after the
stop path completes, contrary to "cleared regardless". -/
theorem cleanup_failure_retains_handle :
    (cleanup false { unlistenFn := some 0, isListening := true }).1.unlistenFn ≠ none := by
  decide

/-- C7 (amended): `cleanup` clears the stored handle only after the
unlisten call succeeds; when the call fails, the failure is only
logged (`cleanup` still returns normally) and the handle is retained
unchanged.  In both cases the stored handle is the one invoked on the
backend. -/
theorem cleanup_clears_handle_only_on_success (s : ListenerState) (h : Nat)
    (hs : s.unlistenFn = some h) :
    cleanup true s = ({ unlistenFn := none, isListening := false }, [h]) ∧
      cleanup false s = (s, [h]) := by
  constructor <;> simp [cleanup, hs]

theorem cleanup_clears_handle_only_on_success_witness :
    cleanup true { unlistenFn := some 5, isListening := true }
        = ({ unlistenFn := none, isListening := false }, [5]) ∧
      cleanup false { unlistenFn := some 5, isListening := true }
        = ({ unlistenFn := some 5, isListening := true }, [5]) :=
  cleanup_clears_handle_only_on_success { unlistenFn := some 5, isListening := true } 5 rfl

/-- C8 counterexample: when channel registration fails,
`startListening` still resolves successfully — the error is caught and
logged, not surfaced to the caller. -/
theorem start_failure_error_swallowed :
    (startListening (Except.error "注册失败") true
        { unlistenFn := none, isListening := false }).1 = Except.ok () ∧
      (startListening (Except.error "注册失败") true
        { unlistenFn := none, isListening := false }).1 ≠ Except.error "注册失败" :=
  ⟨rfl, fun hcon => Except.noConfusion hcon⟩

/-- C8 (amended): when channel registration fails from an unsubscribed
state, the subscription remains `none` and the listening flag false —
so a later retry of start is possible — but the error is only logged:
`startListening` resolves successfully instead of surfacing it. -/
theorem start_failure_leaves_unsubscribed (e : String) (unlistenOk : Bool)
    (s : ListenerState) (h : s.unlistenFn = none) :
    startListening (Except.error e) unlistenOk s
      = (Except.ok (), { unlistenFn := none, isListening := false }, []) := by
  simp [startListening, cleanup, h]

theorem start_failure_leaves_unsubscribed_witness :
    startListening (Except.error "注册失败") false { unlistenFn := none, isListening := true }
      = (Except.ok (), { unlistenFn := none, isListening := false }, []) :=
  start_failure_leaves_unsubscribed "注册失败" false
    { unlistenFn := none, isListening := true } rfl

end DatabaseStore

namespace Visibility

/-- C9: the page-visibility handler only logs a message; the stored
unlisten handle, the listening flag and the monitoring-enabled flag
are all identical before and after it runs, whether the page was
hidden or shown. -/
theorem visibility_change_preserves_state (hidden : Bool) (s : AppState) :
    (handleVisibilityChange hidden s).1 = s := by
  cases hidden <;> rfl

end Visibility

namespace SimpleEncryption

/-- C10: `validatePassword p` is valid exactly when the length of `p`
is between 4 and 50; when invalid it carries a non-empty message; and
it is a total function (never throws). -/
theorem validatePassword_length_bounds (p : String) :
    ((validatePassword p).isValid = true ↔ (4 ≤ p.length ∧ p.length ≤ 50)) ∧
      ((validatePassword p).isValid = false →
        ∃ m, (validatePassword p).message = some m ∧ m ≠ "") := by
  unfold validatePassword
  by_cases h1 : p.length < 4
  · refine ⟨?_, ?_⟩
    · simp only [if_pos h1]
      simp
      omega
    · intro _
      exact ⟨"密码长度至少为4位", by simp [h1], by decide⟩
  · by_cases h2 : p.length > 50
    · refine ⟨?_, ?_⟩
      · simp only [if_neg h1, if_pos h2]
        simp
        omega
      · intro _
        exact ⟨"密码长度不能超过50位", by simp [h1, h2], by decide⟩
    · refine ⟨?_, ?_⟩
      · simp only [if_neg h1, if_neg h2]
        simp
        omega
      · intro hfalse
        simp [h1, h2] at hfalse

theorem validatePassword_length_bounds_witness :
    ∃ m, (validatePassword "abc").message = some m ∧ m ≠ "" :=
  (validatePassword_length_bounds "abc").2 (by decide)

end SimpleEncryption

end AntigravityAgent
